import Mathlib

/-!
Shallow embedding of the waystt-wrapper process-supervision core
(src/main.rs, src/process.rs, src/config.rs).

The GTK main loop is single-threaded and serialized, so the three
termination triggers (Escape key, window close-request, 100ms monitor
tick) and the continuation of the offloaded blocking wait are modelled as
a stream of events dispatched one at a time to the handlers installed by
on_activate.  The shared state consists of the single-slot child cell
(Rc of RefCell of Option ChildProcess), the exit-code cell (Rc of Cell
i32), the weak window reference, the liveness of the timeout source, and
whether a blocking wait is in flight.  Handlers additionally emit a list
of observable actions (signals sent, kills, exit-code writes, peer
broadcasts) so that at-most-once and ordering properties can be stated.
-/

namespace WaysttWrapper

/-- Exit status of the child OS process; `code` is `none` when the child
was terminated by a signal (Rust `ExitStatus::code()` returns `None`). -/
structure ExitStatus where
  code : Option Int
deriving DecidableEq

/-- Rust `status.code().unwrap_or(1)`, as used by both `wait_for_child_exit`
and `handle_unexpected_exit` in main.rs. -/
def ExitStatus.codeOr1 (st : ExitStatus) : Int :=
  st.code.getD 1

/-- Outcome of `ChildProcess::try_wait` (process.rs): `Ok(Some(status))`,
`Ok(None)`, or `Err(io_error)`. -/
inductive TryWaitResult where
  | exited (status : ExitStatus)
  | stillRunning
  | ioError
deriving DecidableEq

/-- Outcome of the `gio::spawn_blocking(move || child.wait())` future awaited
in `wait_for_child_exit` (main.rs): `Ok(Ok(status))`, `Ok(Err(_))` when the
OS wait call failed, or `Err(_)` when spawn_blocking itself failed. -/
inductive WaitResult where
  | ok (status : ExitStatus)
  | waitError
  | spawnBlockingError
deriving DecidableEq

/-- Observable side effects performed by the handlers in main.rs. `takeChild`
records a successful removal of the child from the single-slot cell;
`sendSigusr1 ok` records an attempted graceful signal and whether the OS
delivered it; `broadcastKillall` records the shell-out to killall with its
process-name and signal arguments and whether it succeeded. -/
inductive Action where
  | takeChild
  | sendSigusr1 (ok : Bool)
  | forceKill
  | setExitCode (c : Int)
  | setIcon (iconName : String)
  | requestClose
  | broadcastKillall (processName : String) (signalArg : Option String) (ok : Bool)
deriving DecidableEq

/-- Shared state of the handlers installed by `on_activate` (main.rs):
`childInCell` is whether the `Rc<RefCell<Option<ChildProcess>>>` slot still
holds the child; `exitCode` is the `Rc<Cell<i32>>`; `windowOpen` is whether
the weak window reference still upgrades; `pollerActive` is whether the
100ms timeout source installed by `setup_child_monitor` is still attached
(returning `ControlFlow::Break` removes it); `waitPending` is whether
`wait_for_child_exit` has a blocking wait in flight whose continuation has
not yet run. -/
structure AppState where
  childInCell : Bool
  exitCode : Int
  windowOpen : Bool
  pollerActive : Bool
  waitPending : Bool
deriving DecidableEq

/-- The value of `env!("CARGO_PKG_NAME")` for this crate. -/
def cargoPkgName : String := "waystt-wrapper"

/-- `initiate_shutdown` (main.rs): send SIGUSR1 to the child (a failure is
only logged), switch the icon to the stopping state, and hand the child to
`wait_for_child_exit`, whose offloaded blocking wait completes later as an
`Event.waitDone`. -/
def initiate_shutdown (sigOk : Bool) (s : AppState) : AppState × List Action :=
  ({ s with waitPending := true },
   [Action.sendSigusr1 sigOk, Action.setIcon "content-loading-symbolic"])

/-- `handle_escape_press` (main.rs): when the modifier state contains
Ctrl+Alt, first shell out to `killall` with signal argument "-1" against
this crate's process name, logging any error; then take the child from the
cell and, only if it was present, run `initiate_shutdown`. -/
def handle_escape_press (is_panic_combo killallOk sigOk : Bool)
    (s : AppState) : AppState × List Action :=
  let broadcastActs :=
    if is_panic_combo then
      [Action.broadcastKillall cargoPkgName (some "-1") killallOk]
    else []
  if s.childInCell then
    let p := initiate_shutdown sigOk { s with childInCell := false }
    (p.1, broadcastActs ++ Action.takeChild :: p.2)
  else
    (s, broadcastActs)

/-- The `connect_close_request` closure installed by `setup_close_handler`
(main.rs): take the child from the cell; when one was present, send SIGUSR1,
`force_kill` exactly when that signal fails, and write the sentinel 130 to
the exit-code cell.  The handler returns `Propagation::Proceed`, so GTK
destroys the window afterwards and the weak reference stops upgrading. -/
def close_request_handler (sigOk : Bool) (s : AppState) : AppState × List Action :=
  if s.childInCell then
    ({ s with childInCell := false, exitCode := 130, windowOpen := false },
     Action.takeChild :: Action.sendSigusr1 sigOk ::
       (if sigOk then [] else [Action.forceKill]) ++ [Action.setExitCode 130])
  else
    ({ s with windowOpen := false }, [])

/-- `handle_unexpected_exit` (main.rs): record `status.code().unwrap_or(1)`
in the exit-code cell and close the window when the weak reference still
upgrades.  The child is not taken out of the cell here. -/
def handle_unexpected_exit (status : ExitStatus) (s : AppState) : AppState × List Action :=
  ({ s with exitCode := status.codeOr1 },
   Action.setExitCode status.codeOr1 ::
     (if s.windowOpen then [Action.requestClose] else []))

/-- One firing of the 100ms closure installed by `setup_child_monitor`
(main.rs).  `pollerActive = false` models a source already removed by a
previous `ControlFlow::Break`, so the closure can no longer fire.  An empty
cell breaks the source; `Ok(Some(status))` from try_wait invokes
`handle_unexpected_exit` and breaks; every other result (`Ok(None)` or
`Err(_)`, the source's catch-all `_` arm) continues polling unchanged. -/
def monitor_tick (tw : TryWaitResult) (s : AppState) : AppState × List Action :=
  if s.pollerActive then
    if s.childInCell then
      match tw with
      | .exited status =>
          let p := handle_unexpected_exit status s
          ({ p.1 with pollerActive := false }, p.2)
      | _ => (s, [])
    else
      ({ s with pollerActive := false }, [])
  else
    (s, [])

/-- Continuation of `wait_for_child_exit` (main.rs), delivered back into the
main context after the offloaded blocking `child.wait()` finishes:
`Ok(Ok(status))` records `status.code().unwrap_or(1)`, both error shapes
record 1; then the window is closed when the weak reference upgrades. -/
def wait_for_child_exit_done (r : WaitResult) (s : AppState) : AppState × List Action :=
  let code : Int :=
    match r with
    | .ok status => status.codeOr1
    | .waitError => 1
    | .spawnBlockingError => 1
  ({ s with exitCode := code, waitPending := false },
   Action.setExitCode code ::
     (if s.windowOpen then [Action.requestClose] else []))

/-- Events delivered by the serialized GTK main loop to the installed
handlers.  `escapePress` carries whether the modifier state contained the
Ctrl+Alt panic combination and the environment's answers for the killall
shell-out and the SIGUSR1 delivery; `closeRequest` carries the SIGUSR1
answer; `pollTick` carries the try_wait outcome; `waitDone` carries the
outcome of the offloaded blocking wait. -/
inductive Event where
  | escapePress (is_panic_combo killallOk sigOk : Bool)
  | closeRequest (sigOk : Bool)
  | pollTick (tw : TryWaitResult)
  | waitDone (r : WaitResult)
deriving DecidableEq

/-- Dispatch one event to its handler.  A `waitDone` without a pending wait
cannot occur in the program (the continuation exists only after
`initiate_shutdown` ran) and is a no-op here so that arbitrary event lists
are meaningful. -/
def step (s : AppState) : Event → AppState × List Action
  | .escapePress p k g => handle_escape_press p k g s
  | .closeRequest g => close_request_handler g s
  | .pollTick tw => monitor_tick tw s
  | .waitDone r => if s.waitPending then wait_for_child_exit_done r s else (s, [])

/-- Run a sequence of events from a state, accumulating emitted actions. -/
def run (s : AppState) : List Event → AppState × List Action
  | [] => (s, [])
  | e :: es =>
      let p := step s e
      let q := run p.1 es
      (q.1, p.2 ++ q.2)

/-- The state right after `on_activate` succeeded: the spawned child sits in
the cell, the exit-code cell holds 0, the window is presented, the monitor
source is installed, and no blocking wait is in flight. -/
def initialState : AppState :=
  { childInCell := true, exitCode := 0, windowOpen := true,
    pollerActive := true, waitPending := false }

/-- Does the action write the exit-code cell? -/
def Action.isSetExitCode : Action → Bool
  | .setExitCode _ => true
  | _ => false

/-- Number of writes to the exit-code cell among the emitted actions. -/
def writeCount (acts : List Action) : Nat :=
  (acts.filter Action.isSetExitCode).length

/-- `main` (main.rs) reads the exit-code cell after `app.run_with_args`
returns and exits with `ExitCode::from(code as u8)`; the `as` cast wraps
modulo 256. -/
def finalProcessExitCode (s : AppState) : Nat :=
  (s.exitCode % 256).toNat

/-- Whether the event models the poller observing `Ok(Some(status))`. -/
def Event.pollReportsExit : Event → Bool
  | .pollTick (.exited _) => true
  | _ => false

/-- Error cases of process.rs (payloads elided). -/
inductive ProcessError where
  | SpawnFailed
  | SignalFailed
  | EmptyCommand
deriving DecidableEq

/-- `ChildProcess::spawn` (process.rs): an empty command is rejected as
`EmptyCommand` before any OS call; otherwise `Command::new(..).spawn()` runs
and either yields a handle or fails as `SpawnFailed` (the `osSpawnOk`
parameter is the OS's answer).  The second component counts the OS processes
created by the call. -/
def ChildProcess.spawn (command : List String) (osSpawnOk : Bool) :
    Except ProcessError Unit × Nat :=
  if command.isEmpty then (Except.error ProcessError.EmptyCommand, 0)
  else if osSpawnOk then (Except.ok (), 1)
  else (Except.error ProcessError.SpawnFailed, 0)

/-- Overlay position flag (config.rs). -/
inductive Position where
  | TopLeft
  | TopRight
  | BottomLeft
  | BottomRight
  | Center
deriving DecidableEq

/-- Parsed command-line arguments (config.rs `Args`). -/
structure Args where
  icon : String
  icon_size : Int
  position : Position
  margin : Int
  command : List String

/-- Resolved configuration (config.rs `Config`). -/
structure Config where
  icon : String
  icon_size : Int
  position : Position
  margin : Int
  command : List String

/-- `impl From<Args> for Config` (config.rs): an empty user command is
replaced by the default waystt invocation; all other fields are copied. -/
def Config.fromArgs (args : Args) : Config :=
  { icon := args.icon, icon_size := args.icon_size, position := args.position,
    margin := args.margin,
    command :=
      if args.command.isEmpty then
        ["waystt", "--pipe-to", "wl-copy"]
      else args.command }

/-- Linux signal number of SIGHUP. -/
def SIGHUP : Nat := 1

/-- Linux signal number of SIGUSR1. -/
def SIGUSR1 : Nat := 10

/-- killall's numeric signal syntax: the argument "-n" selects signal
number n (killall(1)). -/
def killallNumericSignalArg (n : Nat) : String :=
  "-" ++ toString n

/-- The killall signal arguments that denote SIGUSR1, by Linux signal
number or by name (killall(1) accepts `-SIGNAL` with a number or a name). -/
def sigusr1KillallArgs : List String :=
  [killallNumericSignalArg SIGUSR1, "-USR1", "-SIGUSR1"]

/-- Whether the action is the peer broadcast (the killall shell-out). -/
def Action.isBroadcast : Action → Bool
  | .broadcastKillall _ _ _ => true
  | _ => false

/-- Whether the action broadcasts the SIGUSR1 graceful signal to peers. -/
def Action.broadcastsSigusr1 : Action → Bool
  | .broadcastKillall _ (some arg) _ => sigusr1KillallArgs.contains arg
  | _ => false

/-- Upper bound on the number of exit-code writes the rest of a run can
still perform from a given shared state: an occupied cell or a pending
blocking wait allows one more write, otherwise none.  The unexpected-exit
poller escapes this accounting because it writes without emptying the
cell. -/
def writeBudget (s : AppState) : Nat :=
  if s.childInCell then 1 else if s.waitPending then 1 else 0

theorem writeCount_append (l1 l2 : List Action) :
    writeCount (l1 ++ l2) = writeCount l1 + writeCount l2 := by
  simp [writeCount, List.filter_append]

theorem run_append (s : AppState) (t1 t2 : List Event) :
    run s (t1 ++ t2) =
      ((run (run s t1).1 t2).1, (run s t1).2 ++ (run (run s t1).1 t2).2) := by
  induction t1 generalizing s with
  | nil => simp [run]
  | cons e es ih => simp [run, ih, List.append_assoc]

theorem step_inv (s : AppState) (e : Event)
    (hinv : s.childInCell = true → s.waitPending = false) :
    (step s e).1.childInCell = true → (step s e).1.waitPending = false := by
  obtain ⟨c, x, w, pa, wp⟩ := s
  cases e with
  | escapePress p k g =>
      cases c <;> cases wp <;> cases p <;>
        simp_all [step, handle_escape_press, initiate_shutdown]
  | closeRequest g =>
      cases c <;> cases wp <;>
        simp_all [step, close_request_handler]
  | pollTick tw =>
      cases tw <;> cases c <;> cases pa <;> cases wp <;>
        simp_all [step, monitor_tick, handle_unexpected_exit]
  | waitDone r =>
      cases c <;> cases wp <;>
        simp_all [step, wait_for_child_exit_done]

theorem run_preserves_inv (t : List Event) :
    ∀ s, (s.childInCell = true → s.waitPending = false) →
      ((run s t).1.childInCell = true → (run s t).1.waitPending = false) := by
  induction t with
  | nil => intro s h; simpa [run] using h
  | cons e es ih =>
      intro s h
      simpa [run] using ih (step s e).1 (step_inv s e h)

theorem step_frozen (s : AppState) (e : Event)
    (hc : s.childInCell = false) (hw : s.waitPending = false) :
    (step s e).1.childInCell = false ∧ (step s e).1.waitPending = false ∧
      (step s e).1.exitCode = s.exitCode := by
  obtain ⟨c, x, w, pa, wp⟩ := s
  cases e with
  | escapePress p k g =>
      cases p <;> simp_all [step, handle_escape_press, initiate_shutdown]
  | closeRequest g =>
      simp_all [step, close_request_handler]
  | pollTick tw =>
      cases tw <;> cases pa <;>
        simp_all [step, monitor_tick, handle_unexpected_exit]
  | waitDone r =>
      simp_all [step, wait_for_child_exit_done]

theorem run_frozen (t : List Event) :
    ∀ s, s.childInCell = false → s.waitPending = false →
      (run s t).1.childInCell = false ∧ (run s t).1.waitPending = false ∧
        (run s t).1.exitCode = s.exitCode := by
  induction t with
  | nil => intro s hc hw; simp [run, hc, hw]
  | cons e es ih =>
      intro s hc hw
      have hs := step_frozen s e hc hw
      have h2 := ih (step s e).1 hs.1 hs.2.1
      simp only [run]
      exact ⟨h2.1, h2.2.1, h2.2.2.trans hs.2.2⟩

theorem step_budget (s : AppState) (e : Event)
    (hpoll : Event.pollReportsExit e = false)
    (hinv : s.childInCell = true → s.waitPending = false) :
    writeCount (step s e).2 + writeBudget (step s e).1 ≤ writeBudget s := by
  obtain ⟨c, x, w, pa, wp⟩ := s
  cases e with
  | escapePress p k g =>
      cases c <;> cases wp <;> cases p <;>
        simp_all [step, handle_escape_press, initiate_shutdown, writeBudget,
          writeCount, Action.isSetExitCode]
  | closeRequest g =>
      cases c <;> cases wp <;> cases g <;>
        simp_all [step, close_request_handler, writeBudget, writeCount,
          Action.isSetExitCode]
  | pollTick tw =>
      cases tw <;> cases c <;> cases pa <;> cases w <;>
        simp_all [step, monitor_tick, handle_unexpected_exit, writeBudget,
          writeCount, Action.isSetExitCode, Event.pollReportsExit]
  | waitDone r =>
      cases c <;> cases wp <;> cases w <;>
        simp_all [step, wait_for_child_exit_done, writeBudget, writeCount,
          Action.isSetExitCode]

theorem run_budget (t : List Event) :
    ∀ s, (∀ e ∈ t, Event.pollReportsExit e = false) →
      (s.childInCell = true → s.waitPending = false) →
      writeCount (run s t).2 ≤ writeBudget s := by
  induction t with
  | nil => intro s _ _; simp [run, writeCount]
  | cons e es ih =>
      intro s h hi
      have h1 := step_budget s e (h e (by simp)) hi
      have h2 := ih (step s e).1 (fun x hx => h x (by simp [hx])) (step_inv s e hi)
      simp only [run, writeCount_append]
      omega

/-- C1 counterexample: the exit-code cell is not always written exactly
once.  In the run where the poller observes the child's exit (code 7) and a
host close-request follows, the cell is written twice (7, then the sentinel
130), because the poller writes without taking the child handle. -/
theorem exit_code_double_write :
    writeCount (run initialState
      [Event.pollTick (TryWaitResult.exited { code := some 7 }),
       Event.closeRequest true]).2 = 2 ∧
    ¬ writeCount (run initialState
      [Event.pollTick (TryWaitResult.exited { code := some 7 }),
       Event.closeRequest true]).2 = 1 := by
  decide

/-- C1 (amended): in every run in which the unexpected-exit poller never
observes an exit status from try_wait, the exit-code cell is written at
most once, owned by whichever trigger wins the take-race; a poller-observed
exit escapes this discipline because the poller writes without taking the
handle. -/
theorem exit_code_written_at_most_once (t : List Event)
    (h : ∀ e ∈ t, Event.pollReportsExit e = false) :
    writeCount (run initialState t).2 ≤ 1 := by
  have hb := run_budget t initialState h (by simp [initialState])
  simpa [writeBudget, initialState] using hb

/-- Witness for the amended C1 theorem on a concrete user-cancel run. -/
theorem exit_code_written_at_most_once_witness :
    (∀ e ∈ [Event.escapePress false true true,
            Event.waitDone (WaitResult.ok { code := some 5 })],
        Event.pollReportsExit e = false) ∧
    writeCount (run initialState
      [Event.escapePress false true true,
       Event.waitDone (WaitResult.ok { code := some 5 })]).2 ≤ 1 :=
  ⟨by decide,
   exit_code_written_at_most_once
     [Event.escapePress false true true,
      Event.waitDone (WaitResult.ok { code := some 5 })] (by decide)⟩

/-- C2: when the child exits on its own with an exit code (the try_wait
polls first report still-running, then the exit status) before any user
gesture or host dismiss, the poller detects it, the exit-code cell ends up
holding the child's real exit code, and the window close is requested. -/
theorem poller_detected_exit_sets_child_code (n : Nat) (st : ExitStatus)
    (c : Int) (h : st.code = some c) :
    (run initialState
      (List.replicate n (Event.pollTick TryWaitResult.stillRunning) ++
        [Event.pollTick (TryWaitResult.exited st)])).1.exitCode = c ∧
    Action.requestClose ∈ (run initialState
      (List.replicate n (Event.pollTick TryWaitResult.stillRunning) ++
        [Event.pollTick (TryWaitResult.exited st)])).2 := by
  induction n with
  | zero =>
      simp [run, step, monitor_tick, handle_unexpected_exit, initialState,
        ExitStatus.codeOr1, h]
  | succ n ih =>
      have hstep : step initialState (Event.pollTick TryWaitResult.stillRunning) =
          (initialState, []) := by decide
      simpa [List.replicate_succ, run, hstep] using ih

/-- Witness for C2 at the spec's example: the child exits with code 7 after
two still-running polls and the final exit code is 7. -/
theorem poller_detected_exit_sets_child_code_witness :
    (ExitStatus.mk (some 7)).code = some 7 ∧
    ((run initialState
      (List.replicate 2 (Event.pollTick TryWaitResult.stillRunning) ++
        [Event.pollTick (TryWaitResult.exited (ExitStatus.mk (some 7)))])).1.exitCode = 7 ∧
     Action.requestClose ∈ (run initialState
      (List.replicate 2 (Event.pollTick TryWaitResult.stillRunning) ++
        [Event.pollTick (TryWaitResult.exited (ExitStatus.mk (some 7)))])).2) :=
  ⟨rfl, poller_detected_exit_sets_child_code 2 (ExitStatus.mk (some 7)) 7 rfl⟩

/-- C3 counterexample: after the poller observes the child's exit, the
child handle is still in the single-slot cell, and a later trigger attempt
(a host close-request) succeeds in taking it instead of observing an empty
slot and no-oping. -/
theorem poller_leaves_handle_in_cell_cex :
    (run initialState
      [Event.pollTick (TryWaitResult.exited { code := some 7 })]).1.childInCell = true ∧
    Action.takeChild ∈ (run initialState
      [Event.pollTick (TryWaitResult.exited { code := some 7 }),
       Event.closeRequest true]).2 := by
  decide

/-- C3 (amended): when the poller's try_wait reports an exit status, the
poller records the exit code and stops future polling for the run, but it
does not remove the child handle from the single-slot cell; the slot stays
occupied, and further monitor firings are impossible once the source is
removed. -/
theorem poller_exit_does_not_take (st : ExitStatus) (s : AppState)
    (hp : s.pollerActive = true) (hc : s.childInCell = true) :
    (monitor_tick (TryWaitResult.exited st) s).1.childInCell = true ∧
    (monitor_tick (TryWaitResult.exited st) s).1.pollerActive = false ∧
    (monitor_tick (TryWaitResult.exited st) s).1.exitCode = st.codeOr1 ∧
    ∀ tw, monitor_tick tw (monitor_tick (TryWaitResult.exited st) s).1 =
      ((monitor_tick (TryWaitResult.exited st) s).1, []) := by
  obtain ⟨c, x, w, pa, wp⟩ := s
  subst hp
  subst hc
  refine ⟨by simp [monitor_tick, handle_unexpected_exit],
          by simp [monitor_tick, handle_unexpected_exit],
          by simp [monitor_tick, handle_unexpected_exit], ?_⟩
  intro tw
  simp [monitor_tick, handle_unexpected_exit]

/-- Witness for the amended C3 theorem at the initial state. -/
theorem poller_exit_does_not_take_witness :
    initialState.pollerActive = true ∧ initialState.childInCell = true ∧
    ((monitor_tick (TryWaitResult.exited (ExitStatus.mk (some 7)))
        initialState).1.childInCell = true ∧
     (monitor_tick (TryWaitResult.exited (ExitStatus.mk (some 7)))
        initialState).1.pollerActive = false ∧
     (monitor_tick (TryWaitResult.exited (ExitStatus.mk (some 7)))
        initialState).1.exitCode = (ExitStatus.mk (some 7)).codeOr1 ∧
     ∀ tw, monitor_tick tw (monitor_tick
        (TryWaitResult.exited (ExitStatus.mk (some 7))) initialState).1 =
      ((monitor_tick (TryWaitResult.exited (ExitStatus.mk (some 7)))
          initialState).1, [])) :=
  ⟨rfl, rfl,
   poller_exit_does_not_take (ExitStatus.mk (some 7)) initialState rfl rfl⟩

/-- C4: whenever the host close-request wins the take-race (the slot is
still occupied when the close handler runs), the final exit code of the
run is the fixed sentinel 130, independent of the child's actual exit
status and of everything that happens afterwards. -/
theorem host_dismiss_win_yields_130 (t1 t2 : List Event) (sigOk : Bool)
    (h : (run initialState t1).1.childInCell = true) :
    (run initialState (t1 ++ Event.closeRequest sigOk :: t2)).1.exitCode = 130 ∧
    finalProcessExitCode
      (run initialState (t1 ++ Event.closeRequest sigOk :: t2)).1 = 130 := by
  have hw : (run initialState t1).1.waitPending = false :=
    run_preserves_inv t1 initialState (by simp [initialState]) h
  have hstep : (step (run initialState t1).1 (Event.closeRequest sigOk)).1 =
      { (run initialState t1).1 with
          childInCell := false, exitCode := 130, windowOpen := false } := by
    simp [step, close_request_handler, h]
  have hfro := run_frozen t2 (step (run initialState t1).1 (Event.closeRequest sigOk)).1
    (by simp [hstep]) (by simp [hstep, hw])
  have hcode : (run initialState (t1 ++ Event.closeRequest sigOk :: t2)).1.exitCode = 130 := by
    rw [run_append]
    simp only [run]
    rw [hfro.2.2, hstep]
  refine ⟨hcode, ?_⟩
  simp [finalProcessExitCode, hcode]

/-- Witness for C4: an immediate host dismiss of a freshly started run
yields exit code 130. -/
theorem host_dismiss_win_yields_130_witness :
    (run initialState []).1.childInCell = true ∧
    ((run initialState ([] ++ Event.closeRequest true :: [])).1.exitCode = 130 ∧
     finalProcessExitCode
       (run initialState ([] ++ Event.closeRequest true :: [])).1 = 130) :=
  ⟨rfl, host_dismiss_win_yields_130 [] [] true rfl⟩

/-- C5 counterexample: when try_wait reports a failure, the poller does not
stop and no shutdown proceeds: the state (including the active poller and
the occupied slot) is exactly unchanged and no action is emitted, so the
failure is not treated like an exit with an unknown/failure code. -/
theorem try_wait_error_polling_continues_cex :
    (run initialState [Event.pollTick TryWaitResult.ioError]).1 = initialState ∧
    (run initialState [Event.pollTick TryWaitResult.ioError]).2 = [] ∧
    (run initialState [Event.pollTick TryWaitResult.ioError]).1.pollerActive = true := by
  decide

/-- C5 (amended): a try_wait failure falls into the monitor closure's
catch-all arm and is treated the same as the child still running: polling
continues with the state untouched and no actions; only an exit status
stops the poller. -/
theorem try_wait_error_treated_as_running (s : AppState)
    (hp : s.pollerActive = true) (hc : s.childInCell = true) :
    monitor_tick TryWaitResult.ioError s = (s, []) ∧
    monitor_tick TryWaitResult.stillRunning s = (s, []) := by
  simp [monitor_tick, hp, hc]

/-- Witness for the amended C5 theorem at the initial state. -/
theorem try_wait_error_treated_as_running_witness :
    initialState.pollerActive = true ∧ initialState.childInCell = true ∧
    (monitor_tick TryWaitResult.ioError initialState = (initialState, []) ∧
     monitor_tick TryWaitResult.stillRunning initialState = (initialState, [])) :=
  ⟨rfl, rfl, try_wait_error_treated_as_running initialState rfl rfl⟩

/-- C6: invoking the close-request handler a second time after a first
invocation already took the child handle is a no-op on shared state: the
state is returned unchanged and no action at all (no take, no graceful
signal, no force-kill, no exit-code write) is performed. -/
theorem close_handler_second_call_noop (s : AppState) (ok1 ok2 : Bool)
    (h : s.childInCell = true) :
    close_request_handler ok2 (close_request_handler ok1 s).1 =
      ((close_request_handler ok1 s).1, []) := by
  obtain ⟨c, x, w, pa, wp⟩ := s
  subst h
  cases ok1 <;> simp [close_request_handler]

/-- Witness for C6: a double close at the initial state. -/
theorem close_handler_second_call_noop_witness :
    initialState.childInCell = true ∧
    close_request_handler false (close_request_handler true initialState).1 =
      ((close_request_handler true initialState).1, []) :=
  ⟨rfl, close_handler_second_call_noop initialState true false rfl⟩

/-- C7: on the host-dismiss path with a live child handle the graceful
SIGUSR1 is attempted first (right after the take) and force-kill happens
exactly when that signal delivery fails; and force-kill can be emitted by
no handler other than the close-request handler with a failing signal and
an occupied slot. -/
theorem force_kill_iff_graceful_fails_on_dismiss (s : AppState) (ok : Bool)
    (h : s.childInCell = true) :
    ((close_request_handler ok s).2 =
      Action.takeChild :: Action.sendSigusr1 ok ::
        (if ok then [Action.setExitCode 130]
         else [Action.forceKill, Action.setExitCode 130])) ∧
    (Action.forceKill ∈ (close_request_handler ok s).2 ↔ ok = false) ∧
    (∀ s2 e, Action.forceKill ∈ (step s2 e).2 →
      e = Event.closeRequest false ∧ s2.childInCell = true) := by
  refine ⟨by cases ok <;> simp [close_request_handler, h],
          by cases ok <;> simp [close_request_handler, h], ?_⟩
  intro s2 e hm
  obtain ⟨c, x, w, pa, wp⟩ := s2
  cases e with
  | escapePress p k g =>
      cases c <;> cases p <;>
        simp_all [step, handle_escape_press, initiate_shutdown]
  | closeRequest g =>
      cases c <;> cases g <;> simp_all [step, close_request_handler]
  | pollTick tw =>
      cases tw <;> cases c <;> cases pa <;> cases w <;>
        simp_all [step, monitor_tick, handle_unexpected_exit]
  | waitDone r =>
      cases wp <;> cases w <;> simp_all [step, wait_for_child_exit_done]

/-- Witness for C7 at the initial state with a failing signal. -/
theorem force_kill_iff_graceful_fails_on_dismiss_witness :
    initialState.childInCell = true ∧
    (((close_request_handler false initialState).2 =
      Action.takeChild :: Action.sendSigusr1 false ::
        (if false then [Action.setExitCode 130]
         else [Action.forceKill, Action.setExitCode 130])) ∧
     (Action.forceKill ∈ (close_request_handler false initialState).2 ↔
       false = false) ∧
     (∀ s2 e, Action.forceKill ∈ (step s2 e).2 →
       e = Event.closeRequest false ∧ s2.childInCell = true)) :=
  ⟨rfl, force_kill_iff_graceful_fails_on_dismiss initialState false rfl⟩

/-- C8 counterexample: the panic-combo broadcast does not carry the SIGUSR1
graceful signal.  The escape handler with Ctrl+Alt held emits exactly one
broadcast, whose killall signal argument is "-1" — the numeric syntax for
signal 1, SIGHUP — so no emitted action broadcasts SIGUSR1. -/
theorem panic_broadcast_not_sigusr1_cex :
    (run initialState [Event.escapePress true true true]).2 =
      [Action.broadcastKillall cargoPkgName
         (some (killallNumericSignalArg SIGHUP)) true,
       Action.takeChild, Action.sendSigusr1 true,
       Action.setIcon "content-loading-symbolic"] ∧
    (run initialState [Event.escapePress true true true]).2.any
      Action.broadcastsSigusr1 = false ∧
    killallNumericSignalArg SIGHUP ≠ killallNumericSignalArg SIGUSR1 := by
  refine ⟨by decide, by decide, by decide⟩

/-- C8 (amended): when the cancel gesture carries Ctrl+Alt, the handler
first (before taking the child) broadcasts via killall, with signal
argument "-1" (signal 1, SIGHUP — not the SIGUSR1 graceful signal), to all
processes named waystt-wrapper; whether that broadcast fails or succeeds,
the local shutdown proceeds identically (take, SIGUSR1 to the child,
stopping icon, blocking wait handed off). -/
theorem panic_broadcast_sighup_before_local_shutdown
    (killallOk sigOk : Bool) (s : AppState) (h : s.childInCell = true) :
    handle_escape_press true killallOk sigOk s =
      ({ s with childInCell := false, waitPending := true },
       [Action.broadcastKillall cargoPkgName
          (some (killallNumericSignalArg SIGHUP)) killallOk,
        Action.takeChild, Action.sendSigusr1 sigOk,
        Action.setIcon "content-loading-symbolic"]) := by
  have harg : killallNumericSignalArg SIGHUP = "-1" := by decide
  simp [handle_escape_press, initiate_shutdown, h, harg]

/-- Witness for the amended C8 theorem: a failing broadcast at the initial
state still yields the same local-shutdown actions. -/
theorem panic_broadcast_sighup_before_local_shutdown_witness :
    initialState.childInCell = true ∧
    handle_escape_press true false true initialState =
      ({ initialState with childInCell := false, waitPending := true },
       [Action.broadcastKillall cargoPkgName
          (some (killallNumericSignalArg SIGHUP)) false,
        Action.takeChild, Action.sendSigusr1 true,
        Action.setIcon "content-loading-symbolic"]) :=
  ⟨rfl, panic_broadcast_sighup_before_local_shutdown false true initialState rfl⟩

/-- C9: spawn returns the empty-command configuration error exactly when
the command sequence is empty, in which case no OS process is created; and
every command produced from parsed arguments is non-empty (an empty user
command is replaced by the default), so spawn never reports EmptyCommand
for a command coming out of Config. -/
theorem spawn_empty_command_policy (cmd : List String) (osSpawnOk : Bool)
    (args : Args) :
    ((ChildProcess.spawn cmd osSpawnOk).1 =
        Except.error ProcessError.EmptyCommand ↔ cmd = []) ∧
    (ChildProcess.spawn [] osSpawnOk).2 = 0 ∧
    (Config.fromArgs args).command ≠ [] ∧
    (ChildProcess.spawn (Config.fromArgs args).command osSpawnOk).1 ≠
      Except.error ProcessError.EmptyCommand := by
  have hcfg : (Config.fromArgs args).command ≠ [] := by
    cases hc : args.command <;> simp [Config.fromArgs, hc]
  refine ⟨?_, ?_, hcfg, ?_⟩
  · cases cmd <;> cases osSpawnOk <;> simp [ChildProcess.spawn]
  · cases osSpawnOk <;> simp [ChildProcess.spawn]
  · cases hc : (Config.fromArgs args).command with
    | nil => exact absurd hc hcfg
    | cons a l => cases osSpawnOk <;> simp [ChildProcess.spawn, hc]

/-- Witness for C9 at a concrete command and argument set. -/
theorem spawn_empty_command_policy_witness :
    ((ChildProcess.spawn ["echo", "hi"] true).1 =
        Except.error ProcessError.EmptyCommand ↔ ["echo", "hi"] = ([] : List String)) ∧
    (ChildProcess.spawn [] true).2 = 0 ∧
    (Config.fromArgs (Args.mk "icon" 96 Position.Center 20 [])).command ≠ [] ∧
    (ChildProcess.spawn
      (Config.fromArgs (Args.mk "icon" 96 Position.Center 20 [])).command true).1 ≠
      Except.error ProcessError.EmptyCommand :=
  spawn_empty_command_policy ["echo", "hi"] true
    (Args.mk "icon" 96 Position.Center 20 [])

/-- C10: when the child's reported exit status carries no exit code (the
child was killed by a signal), both the blocking-wait continuation and the
unexpected-exit poller record exit code 1 in the exit-code cell. -/
theorem signal_termination_records_code_one (st : ExitStatus) (s : AppState)
    (h : st.code = none) :
    (wait_for_child_exit_done (WaitResult.ok st) s).1.exitCode = 1 ∧
    Action.setExitCode 1 ∈ (wait_for_child_exit_done (WaitResult.ok st) s).2 ∧
    (s.pollerActive = true → s.childInCell = true →
      (monitor_tick (TryWaitResult.exited st) s).1.exitCode = 1 ∧
      Action.setExitCode 1 ∈ (monitor_tick (TryWaitResult.exited st) s).2) := by
  have hc : st.codeOr1 = 1 := by simp [ExitStatus.codeOr1, h]
  refine ⟨by simp [wait_for_child_exit_done, hc],
          by simp [wait_for_child_exit_done, hc], ?_⟩
  intro hp hcc
  constructor
  · simp [monitor_tick, handle_unexpected_exit, hp, hcc, hc]
  · simp [monitor_tick, handle_unexpected_exit, hp, hcc, hc]

/-- Witness for C10 at a signal-terminated status and the initial state. -/
theorem signal_termination_records_code_one_witness :
    (ExitStatus.mk none).code = none ∧
    ((wait_for_child_exit_done (WaitResult.ok (ExitStatus.mk none))
        initialState).1.exitCode = 1 ∧
     Action.setExitCode 1 ∈ (wait_for_child_exit_done
        (WaitResult.ok (ExitStatus.mk none)) initialState).2 ∧
     (initialState.pollerActive = true → initialState.childInCell = true →
       (monitor_tick (TryWaitResult.exited (ExitStatus.mk none))
          initialState).1.exitCode = 1 ∧
       Action.setExitCode 1 ∈ (monitor_tick
          (TryWaitResult.exited (ExitStatus.mk none)) initialState).2)) :=
  ⟨rfl, signal_termination_records_code_one (ExitStatus.mk none) initialState rfl⟩

end WaysttWrapper
